import Mathlib

/-!
Verification of the Black-Swan Kraken REST client (`src/rust_client`).

The development shallowly embeds the client's pure request-building and
response-decoding logic. Network effects are made explicit: the wall-clock
reading, the generated nonce and the HTTP response are parameters of the
embedded operations, so each Rust method becomes a pure Lean function from
those inputs to its `Result`.

Modelling conventions:
* Rust `f64` values arising from parsing decimal strings are modelled as exact
  rationals (`ℚ`); the IEEE-754 rounding of a decimal literal to the nearest
  double is abstracted away (every arithmetic fact proved here holds of the
  exact decimal values, which is what the spec's "within floating-point
  tolerance" refers to).
* `serde_json::Value` is the inductive `Json` below; its integer-stored and
  float-stored numbers are split into `jint` / `jnum` to mirror
  `serde_json::Number` (`as_u64` succeeds only on integer-stored values).
* JSON objects are association lists in insertion order (serde_json's map
  preserves insertion order); where the Rust code iterates a `HashMap` whose
  order is unspecified, theorems are stated over single-entry objects, for
  which every iteration order agrees.
-/

namespace BlackSwan

/-- The embedding of `serde_json::Value`. `jint` holds integer-stored numbers
(`i64`/`u64` in serde_json), `jnum` float-stored ones (modelled as exact
rationals). -/
inductive Json where
  | null
  | jbool (b : Bool)
  | jint (n : Int)
  | jnum (q : ℚ)
  | jstr (s : String)
  | jarr (elems : List Json)
  | jobj (fields : List (String × Json))
deriving Repr

/-- `Value::get(key)`: field lookup on an object, `None` otherwise. Objects
have unique keys after JSON parsing, so first-match lookup is exact. -/
def Json.get (j : Json) (key : String) : Option Json :=
  match j with
  | .jobj fields => fields.lookup key
  | _ => none

/-- Rust `value[key]` (the `Index<&str>` impl): like `get` but yielding
`Value::Null` when absent or when `j` is not an object. -/
def Json.atKey (j : Json) (key : String) : Json :=
  (j.get key).getD .null

/-- Rust `value[i]` (the `Index<usize>` impl): the `i`-th array element,
`Value::Null` when out of range or when `j` is not an array. -/
def Json.atIdx (j : Json) (i : Nat) : Json :=
  match j with
  | .jarr elems => (elems.get? i).getD .null
  | _ => .null

/-- `Value::as_str`. -/
def Json.as_str (j : Json) : Option String :=
  match j with
  | .jstr s => some s
  | _ => none

/-- `Value::as_array`. -/
def Json.as_array (j : Json) : Option (List Json) :=
  match j with
  | .jarr elems => some elems
  | _ => none

/-- `Value::as_object`. -/
def Json.as_object (j : Json) : Option (List (String × Json)) :=
  match j with
  | .jobj fields => some fields
  | _ => none

/-- `Value::as_u64`: succeeds exactly on integer-stored numbers in `u64`
range. -/
def Json.as_u64 (j : Json) : Option Nat :=
  match j with
  | .jint n => if 0 ≤ n ∧ n < 2 ^ 64 then some n.toNat else none
  | _ => none

/-! ### Rust string helpers -/

/-- ASCII decimal digit test. -/
def isAsciiDigit (c : Char) : Bool := '0' ≤ c && c ≤ '9'

/-- Value of a big-endian ASCII digit string. -/
def digitsVal (cs : List Char) : Nat :=
  cs.foldl (fun a c => 10 * a + (c.toNat - 48)) 0

/-- Split a character list at the first character satisfying `p`, dropping
that character; `none` when no character satisfies `p`. -/
def splitAtFirst (p : Char → Bool) : List Char → Option (List Char × List Char)
  | [] => none
  | c :: rest =>
    if p c then some ([], rest)
    else (splitAtFirst p rest).map (fun pr => (c :: pr.1, pr.2))

/-- The mantissa part of a Rust float literal: `digits`, `digits.digits?` or
`.digits`. Returns the digit string's value with the fraction's length, so the
mantissa denotes `value / 10 ^ fracLen`. -/
def parseMantissaParts (cs : List Char) : Option (Nat × Nat) :=
  match splitAtFirst (· == '.') cs with
  | none =>
    if !cs.isEmpty && cs.all isAsciiDigit then some (digitsVal cs, 0) else none
  | some (ip, fp) =>
    if (ip.all isAsciiDigit && fp.all isAsciiDigit) && !(ip.isEmpty && fp.isEmpty)
    then some (digitsVal (ip ++ fp), fp.length)
    else none

/-- The exponent part of a Rust float literal (after `e`/`E`): an optional
sign followed by at least one digit. -/
def parseExpPart (cs : List Char) : Option ℤ :=
  match cs with
  | '+' :: rest =>
    if !rest.isEmpty && rest.all isAsciiDigit then some (digitsVal rest) else none
  | '-' :: rest =>
    if !rest.isEmpty && rest.all isAsciiDigit then some (-(digitsVal rest : ℤ)) else none
  | _ =>
    if !cs.isEmpty && cs.all isAsciiDigit then some (digitsVal cs) else none

/-- The digit-level phase of Rust float parsing: a signed integer mantissa `m`
and a power-of-ten exponent `e`, the literal denoting `m * 10 ^ e`. Kept on
`Int`/`ℤ` so that concrete parses reduce definitionally. -/
def parseF64Parts (s : String) : Option (Int × ℤ) :=
  let signAndRest : Int × List Char :=
    match s.data with
    | '+' :: rest => (1, rest)
    | '-' :: rest => (-1, rest)
    | cs => (1, cs)
  let sign := signAndRest.1
  let cs := signAndRest.2
  match splitAtFirst (fun c => c == 'e' || c == 'E') cs with
  | none => (parseMantissaParts cs).map (fun mf => (sign * mf.1, -(mf.2 : ℤ)))
  | some (mant, ex) =>
    match parseMantissaParts mant, parseExpPart ex with
    | some mf, some e => some (sign * mf.1, e - (mf.2 : ℤ))
    | _, _ => none

/-- Rust `str::parse::<f64>()`, modelled over finite decimal literals with the
exact rational value of the literal (IEEE-754 rounding abstracted; the
`inf`/`infinity`/`nan` spellings, which have no rational value, are outside
the model). Accepts `[+-]? (digits | digits.digits? | .digits)
([eE][+-]?digits)?` and rejects everything else, as Rust does. -/
def parseF64 (s : String) : Option ℚ :=
  (parseF64Parts s).map (fun me => (me.1 : ℚ) * (10 : ℚ) ^ me.2)

/-- ASCII lowercasing of one character. -/
def asciiLower (c : Char) : Char :=
  if 'A' ≤ c && c ≤ 'Z' then Char.ofNat (c.toNat + 32) else c

/-- Rust `str::to_lowercase()`. Rust applies the full Unicode lowercase
mapping; on ASCII (every input the validation below distinguishes) it
coincides with the ASCII mapping modelled here. -/
def rustLowercase (s : String) : String :=
  ⟨s.data.map asciiLower⟩

/-- Rust's `Debug` escaping of a string character (the escapes relevant to
the message strings at hand: quote, backslash and the common controls). -/
def rustEscapeChar (c : Char) : List Char :=
  if c = '"' then ['\\', '"']
  else if c = '\\' then ['\\', '\\']
  else if c = '\n' then ['\\', 'n']
  else if c = '\r' then ['\\', 'r']
  else if c = '\t' then ['\\', 't']
  else [c]

/-- Rust's `Debug` rendering of a string: quoted and escaped. -/
def rustDebugStr (s : String) : String :=
  ⟨'"' :: (s.data.map rustEscapeChar).flatten ++ ['"']⟩

mutual

/-- serde_json's `Debug` rendering of a `Value` (`Null`, `Bool(b)`,
`Number(n)`, `String("s")`, `Array [..]`, `Object \x7b..\x7d`). The numeric
renderings are schematic (no claim evaluates them); the string rendering is
exact. -/
def serdeDebugVal : Json → String
  | .null => "Null"
  | .jbool true => "Bool(true)"
  | .jbool false => "Bool(false)"
  | .jint n => "Number(" ++ toString n ++ ")"
  | .jnum q => "Number(" ++ toString q.num ++ "/" ++ toString q.den ++ ")"
  | .jstr s => "String(" ++ rustDebugStr s ++ ")"
  | .jarr xs => "Array [" ++ serdeDebugList xs ++ "]"
  | .jobj fs => "Object \x7b" ++ serdeDebugFields fs ++ "\x7d"

/-- Comma-separated `Debug` rendering of a list of values. -/
def serdeDebugList : List Json → String
  | [] => ""
  | [x] => serdeDebugVal x
  | x :: y :: xs => serdeDebugVal x ++ ", " ++ serdeDebugList (y :: xs)

/-- Comma-separated `Debug` rendering of object fields. -/
def serdeDebugFields : List (String × Json) → String
  | [] => ""
  | [(k, v)] => rustDebugStr k ++ ": " ++ serdeDebugVal v
  | (k, v) :: f :: fs =>
    rustDebugStr k ++ ": " ++ serdeDebugVal v ++ ", " ++ serdeDebugFields (f :: fs)

end

/-- Rust `format!("\x7b:?\x7d", errors)` for `errors : &Vec<Value>`:
bracketed, comma-separated `Debug` of the elements. -/
def rustDebugVec (xs : List Json) : String :=
  "[" ++ serdeDebugList xs ++ "]"

/-- The client's error type (`KrakenError` in `kraken/mod.rs`): transport
errors, parse errors carrying a message, and missing-field errors carrying
the field name. `HttpError` wraps a `reqwest::Error`, modelled by its display
string. Note the type has no dedicated exchange-error or validation-error
variant. -/
inductive KrakenError where
  | HttpError (e : String)
  | ParseError (msg : String)
  | MissingField (field : String)
deriving DecidableEq, Repr

/-- Whether an error is the generic parse-failure constructor — the same
constructor `response.json()` failures are wrapped in. -/
def isParseErrorVariant : KrakenError → Bool
  | .ParseError _ => true
  | _ => false

/-- Whether an error is the dedicated missing-field constructor. -/
def isMissingFieldVariant : KrakenError → Bool
  | .MissingField _ => true
  | _ => false

/-! ### Bytes and UTF-8 -/

/-- UTF-8 encoding of one Unicode scalar value. -/
def utf8Bytes (n : Nat) : List Nat :=
  if n < 0x80 then [n]
  else if n < 0x800 then
    [0xC0 ||| (n >>> 6), 0x80 ||| (n &&& 0x3F)]
  else if n < 0x10000 then
    [0xE0 ||| (n >>> 12), 0x80 ||| ((n >>> 6) &&& 0x3F), 0x80 ||| (n &&& 0x3F)]
  else
    [0xF0 ||| (n >>> 18), 0x80 ||| ((n >>> 12) &&& 0x3F),
     0x80 ||| ((n >>> 6) &&& 0x3F), 0x80 ||| (n &&& 0x3F)]

/-- Rust `str::as_bytes()`: the UTF-8 bytes of a string, as `Nat`s below 256. -/
def strBytes (s : String) : List Nat :=
  (s.data.map (fun c => utf8Bytes c.toNat)).flatten

/-- Split a list into consecutive chunks of `n` elements (the last possibly
shorter); fuelled by the list length so the recursion is structural. -/
def chunksOfAux (n : Nat) : Nat → List α → List (List α)
  | 0, _ => []
  | _, [] => []
  | fuel + 1, l => l.take n :: chunksOfAux n fuel (l.drop n)

/-- Split a list into consecutive chunks of `n` elements. -/
def chunksOf (n : Nat) (l : List α) : List (List α) :=
  chunksOfAux n l.length l

/-- Big-endian value of a byte list. -/
def beWord (bs : List Nat) : Nat :=
  bs.foldl (fun a b => 256 * a + b) 0

/-- The `k`-byte big-endian encoding of `x`. -/
def natToBytes (k : Nat) (x : Nat) : List Nat :=
  (List.range k).map (fun i => (x >>> (8 * (k - 1 - i))) % 256)

/-! ### SHA-2 (FIPS 180-4), generic over the word size -/

/-- Right rotation of a `w`-bit word. -/
def rotr (w n x : Nat) : Nat :=
  ((x >>> n) ||| (x <<< (w - n))) % 2 ^ w

/-- SHA-2 `Ch(e,f,g)` on `w`-bit words. -/
def sha2Ch (w e f g : Nat) : Nat :=
  (e &&& f) ^^^ ((e ^^^ (2 ^ w - 1)) &&& g)

/-- SHA-2 `Maj(a,b,c)`. -/
def sha2Maj (a b c : Nat) : Nat :=
  (a &&& b) ^^^ (a &&& c) ^^^ (b &&& c)

/-- The eight working variables of the SHA-2 compression loop. -/
structure Sha2State where
  a : Nat
  b : Nat
  c : Nat
  d : Nat
  e : Nat
  f : Nat
  g : Nat
  h : Nat

/-- Read the eight chaining values from a list. -/
def sha2StateOfList (H : List Nat) : Sha2State :=
  { a := H.getD 0 0, b := H.getD 1 0, c := H.getD 2 0, d := H.getD 3 0,
    e := H.getD 4 0, f := H.getD 5 0, g := H.getD 6 0, h := H.getD 7 0 }

/-- One SHA-2 round with round constant and schedule word `kw`. -/
def sha2Round (w : Nat) (S0 S1 : Nat → Nat) (st : Sha2State) (kw : Nat × Nat) :
    Sha2State :=
  let T1 := (st.h + S1 st.e + sha2Ch w st.e st.f st.g + kw.1 + kw.2) % 2 ^ w
  let T2 := (S0 st.a + sha2Maj st.a st.b st.c) % 2 ^ w
  { a := (T1 + T2) % 2 ^ w, b := st.a, c := st.b, d := st.c,
    e := (st.d + T1) % 2 ^ w, f := st.e, g := st.f, h := st.g }

/-- Extend the sixteen block words to the full message schedule. -/
def sha2Extend (w rounds : Nat) (s0 s1 : Nat → Nat) (ws : Array Nat) : Array Nat :=
  (List.range (rounds - 16)).foldl
    (fun ws i =>
      let t := (s1 (ws.getD (i + 14) 0) + ws.getD (i + 9) 0 +
                s0 (ws.getD (i + 1) 0) + ws.getD i 0) % 2 ^ w
      ws.push t)
    ws

/-- Add the compression result back onto the chaining values. -/
def sha2AddState (w : Nat) (H : List Nat) (st : Sha2State) : List Nat :=
  List.zipWith (fun x y => (x + y) % 2 ^ w)
    H [st.a, st.b, st.c, st.d, st.e, st.f, st.g, st.h]

/-- SHA-2 padding: `0x80`, zeros to `lenBytes` short of a block boundary, then
the big-endian bit length. -/
def sha2Pad (blockBytes lenBytes : Nat) (msg : List Nat) : List Nat :=
  let L := msg.length
  let zeros := (blockBytes - ((L + 1 + lenBytes) % blockBytes)) % blockBytes
  msg ++ 0x80 :: List.replicate zeros 0 ++ natToBytes lenBytes (8 * L)

/-- The generic SHA-2 hash on byte lists. -/
def sha2Hash (w rounds blockBytes lenBytes : Nat) (S0 S1 s0 s1 : Nat → Nat)
    (K H0 : List Nat) (msg : List Nat) : List Nat :=
  let blocks := chunksOf blockBytes (sha2Pad blockBytes lenBytes msg)
  let final := blocks.foldl
    (fun H block =>
      let ws := sha2Extend w rounds s0 s1 ((chunksOf (w / 8) block).map beWord).toArray
      let st := (List.range rounds).foldl
        (fun st i => sha2Round w S0 S1 st (K.getD i 0, ws.getD i 0))
        (sha2StateOfList H)
      sha2AddState w H st)
    H0
  (final.map (natToBytes (w / 8))).flatten

/-- The 80 SHA-512 round constants of FIPS 180-4, each split into its high
and low 32-bit halves (the first 64 fractional bits of the cube roots of the
first eighty primes). Splitting keeps the table in the citable hexadecimal
form while the hash functions below recombine the halves. -/
def sha2Khalves : List (Nat × Nat) :=
  [(0x428a2f98, 0xd728ae22), (0x71374491, 0x23ef65cd),
   (0xb5c0fbcf, 0xec4d3b2f), (0xe9b5dba5, 0x8189dbbc),
   (0x3956c25b, 0xf348b538), (0x59f111f1, 0xb605d019),
   (0x923f82a4, 0xaf194f9b), (0xab1c5ed5, 0xda6d8118),
   (0xd807aa98, 0xa3030242), (0x12835b01, 0x45706fbe),
   (0x243185be, 0x4ee4b28c), (0x550c7dc3, 0xd5ffb4e2),
   (0x72be5d74, 0xf27b896f), (0x80deb1fe, 0x3b1696b1),
   (0x9bdc06a7, 0x25c71235), (0xc19bf174, 0xcf692694),
   (0xe49b69c1, 0x9ef14ad2), (0xefbe4786, 0x384f25e3),
   (0x0fc19dc6, 0x8b8cd5b5), (0x240ca1cc, 0x77ac9c65),
   (0x2de92c6f, 0x592b0275), (0x4a7484aa, 0x6ea6e483),
   (0x5cb0a9dc, 0xbd41fbd4), (0x76f988da, 0x831153b5),
   (0x983e5152, 0xee66dfab), (0xa831c66d, 0x2db43210),
   (0xb00327c8, 0x98fb213f), (0xbf597fc7, 0xbeef0ee4),
   (0xc6e00bf3, 0x3da88fc2), (0xd5a79147, 0x930aa725),
   (0x06ca6351, 0xe003826f), (0x14292967, 0x0a0e6e70),
   (0x27b70a85, 0x46d22ffc), (0x2e1b2138, 0x5c26c926),
   (0x4d2c6dfc, 0x5ac42aed), (0x53380d13, 0x9d95b3df),
   (0x650a7354, 0x8baf63de), (0x766a0abb, 0x3c77b2a8),
   (0x81c2c92e, 0x47edaee6), (0x92722c85, 0x1482353b),
   (0xa2bfe8a1, 0x4cf10364), (0xa81a664b, 0xbc423001),
   (0xc24b8b70, 0xd0f89791), (0xc76c51a3, 0x0654be30),
   (0xd192e819, 0xd6ef5218), (0xd6990624, 0x5565a910),
   (0xf40e3585, 0x5771202a), (0x106aa070, 0x32bbd1b8),
   (0x19a4c116, 0xb8d2d0c8), (0x1e376c08, 0x5141ab53),
   (0x2748774c, 0xdf8eeb99), (0x34b0bcb5, 0xe19b48a8),
   (0x391c0cb3, 0xc5c95a63), (0x4ed8aa4a, 0xe3418acb),
   (0x5b9cca4f, 0x7763e373), (0x682e6ff3, 0xd6b2b8a3),
   (0x748f82ee, 0x5defb2fc), (0x78a5636f, 0x43172f60),
   (0x84c87814, 0xa1f0ab72), (0x8cc70208, 0x1a6439ec),
   (0x90befffa, 0x23631e28), (0xa4506ceb, 0xde82bde9),
   (0xbef9a3f7, 0xb2c67915), (0xc67178f2, 0xe372532b),
   (0xca273ece, 0xea26619c), (0xd186b8c7, 0x21c0c207),
   (0xeada7dd6, 0xcde0eb1e), (0xf57d4f7f, 0xee6ed178),
   (0x06f067aa, 0x72176fba), (0x0a637dc5, 0xa2c898a6),
   (0x113f9804, 0xbef90dae), (0x1b710b35, 0x131c471b),
   (0x28db77f5, 0x23047d84), (0x32caab7b, 0x40c72493),
   (0x3c9ebe0a, 0x15c9bebc), (0x431d67c4, 0x9c100d4c),
   (0x4cc5d4be, 0xcb3e42b6), (0x597f299c, 0xfc657e2a),
   (0x5fcb6fab, 0x3ad6faec), (0x6c44198c, 0x4a475817)]

/-- SHA-256 round constants: per FIPS 180-4 these are exactly the high 32-bit
halves of the first 64 SHA-512 constants. -/
def sha256K : List Nat :=
  (sha2Khalves.take 64).map (fun hl => hl.1)

/-- SHA-256 initial chaining values. -/
def sha256H0 : List Nat :=
  [0x6a09e667, 0xbb67ae85, 0x3c6ef372, 0xa54ff53a,
   0x510e527f, 0x9b05688c, 0x1f83d9ab, 0x5be0cd19]

/-- SHA-256 (`Sha256::digest` in the Rust code): 32 output bytes. -/
def sha256 (msg : List Nat) : List Nat :=
  sha2Hash 32 64 64 8
    (fun x => rotr 32 2 x ^^^ rotr 32 13 x ^^^ rotr 32 22 x)
    (fun x => rotr 32 6 x ^^^ rotr 32 11 x ^^^ rotr 32 25 x)
    (fun x => rotr 32 7 x ^^^ rotr 32 18 x ^^^ (x >>> 3))
    (fun x => rotr 32 17 x ^^^ rotr 32 19 x ^^^ (x >>> 10))
    sha256K sha256H0 msg

/-- SHA-512 round constants: the halves of `sha2Khalves` recombined into
64-bit words. -/
def sha512K : List Nat :=
  sha2Khalves.map (fun hl => hl.1 * 2 ^ 32 + hl.2)

/-- SHA-512 initial chaining values. -/
def sha512H0 : List Nat :=
  [0x6a09e667f3bcc908, 0xbb67ae8584caa73b, 0x3c6ef372fe94f82b, 0xa54ff53a5f1d36f1,
   0x510e527fade682d1, 0x9b05688c2b3e6c1f, 0x1f83d9abfb41bd6b, 0x5be0cd19137e2179]

/-- SHA-512: 64 output bytes. -/
def sha512 (msg : List Nat) : List Nat :=
  sha2Hash 64 80 128 16
    (fun x => rotr 64 28 x ^^^ rotr 64 34 x ^^^ rotr 64 39 x)
    (fun x => rotr 64 14 x ^^^ rotr 64 18 x ^^^ rotr 64 41 x)
    (fun x => rotr 64 1 x ^^^ rotr 64 8 x ^^^ (x >>> 7))
    (fun x => rotr 64 19 x ^^^ rotr 64 61 x ^^^ (x >>> 6))
    sha512K sha512H0 msg

/-- HMAC-SHA512 (RFC 2104; `Hmac::<Sha512>` in the Rust code). The block size
is 128 bytes; over-long keys are hashed, short keys zero-padded. -/
def hmacSha512 (key msg : List Nat) : List Nat :=
  let key1 := if key.length > 128 then sha512 key else key
  let key2 := key1 ++ List.replicate (128 - key1.length) 0
  sha512 ((key2.map (· ^^^ 0x5c)) ++ sha512 ((key2.map (· ^^^ 0x36)) ++ msg))

/-! ### Base64 (the `STANDARD` engine of the `base64` crate) -/

/-- The standard base64 alphabet. -/
def b64Char (n : Nat) : Char :=
  if n < 26 then Char.ofNat (65 + n)
  else if n < 52 then Char.ofNat (97 + (n - 26))
  else if n < 62 then Char.ofNat (48 + (n - 52))
  else if n = 62 then '+'
  else '/'

/-- Base64 encoding of a byte list, three bytes to four characters, padded
with `=`. -/
def b64EncodeChunks : List Nat → List Char
  | a :: b :: c :: rest =>
    let n := a * 65536 + b * 256 + c
    b64Char (n >>> 18) :: b64Char ((n >>> 12) &&& 63) ::
      b64Char ((n >>> 6) &&& 63) :: b64Char (n &&& 63) :: b64EncodeChunks rest
  | [a, b] =>
    let n := a * 65536 + b * 256
    [b64Char (n >>> 18), b64Char ((n >>> 12) &&& 63), b64Char ((n >>> 6) &&& 63), '=']
  | [a] =>
    let n := a * 65536
    [b64Char (n >>> 18), b64Char ((n >>> 12) &&& 63), '=', '=']
  | [] => []

/-- `STANDARD.encode`. -/
def base64Encode (bs : List Nat) : String :=
  ⟨b64EncodeChunks bs⟩

/-- Value of one base64 alphabet character. -/
def b64CharVal (c : Char) : Option Nat :=
  if 'A' ≤ c && c ≤ 'Z' then some (c.toNat - 65)
  else if 'a' ≤ c && c ≤ 'z' then some (c.toNat - 71)
  else if '0' ≤ c && c ≤ '9' then some (c.toNat + 4)
  else if c = '+' then some 62
  else if c = '/' then some 63
  else none

/-- Strict base64 decoding by four-character groups: canonical padding
required, `=` only in a final group, trailing bits required to be zero —
the defaults of the `STANDARD` engine. -/
def b64DecodeQuads : List Char → Option (List Nat)
  | [] => some []
  | c1 :: c2 :: c3 :: c4 :: rest =>
    match b64CharVal c1, b64CharVal c2 with
    | some v1, some v2 =>
      if c3 = '=' then
        if c4 = '=' && rest.isEmpty && v2 % 16 == 0 then
          some [v1 * 4 + v2 / 16]
        else none
      else
        match b64CharVal c3 with
        | some v3 =>
          if c4 = '=' then
            if rest.isEmpty && v3 % 4 == 0 then
              some [v1 * 4 + v2 / 16, (v2 % 16) * 16 + v3 / 4]
            else none
          else
            match b64CharVal c4 with
            | some v4 =>
              (b64DecodeQuads rest).map
                (fun bs => (v1 * 4 + v2 / 16) :: ((v2 % 16) * 16 + v3 / 4) ::
                  ((v3 % 4) * 64 + v4) :: bs)
            | none => none
        | none => none
    | _, _ => none
  | _ => none

/-- `STANDARD.decode`, `none` on any rejection. -/
def base64Decode (s : String) : Option (List Nat) :=
  b64DecodeQuads s.data

/-! ### The signing pipeline (`kraken/mod.rs`) -/

/-- `KrakenClient::generate_nonce`: the wall-clock milliseconds since the
epoch, rendered in decimal. The clock reading is the parameter; the function
keeps no state. (The `expect("Time went backwards")` in the source can only
fire for a pre-epoch clock, which `Nat` readings exclude.) -/
def generate_nonce (clockMillis : Nat) : String :=
  toString clockMillis

/-- `KrakenClient::create_signature_message`: the request path's UTF-8 bytes
followed by the SHA-256 digest of nonce-string ++ body-string. -/
def create_signature_message (path nonce body_str : String) : List Nat :=
  let nonce_plus_data := nonce ++ body_str
  let sha256_digest := sha256 (strBytes nonce_plus_data)
  strBytes path ++ sha256_digest

/-- `KrakenClient::sign_message`: base64-decode the stored secret (failure
becomes `ParseError`; the library's error message is abstracted to a fixed
string), HMAC-SHA512 the message under the decoded key, base64-encode the
tag. The `Hmac::new_from_slice` failure arm in the source is dead code —
HMAC-SHA512 accepts keys of any length — and is not modelled. -/
def sign_message (api_secret : String) (message : List Nat) :
    Except KrakenError String :=
  match base64Decode api_secret with
  | none => .error (.ParseError "invalid base64")
  | some decoded_secret => .ok (base64Encode (hmacSha512 decoded_secret message))

/-- Modelled from the spec (§4.2 signature algorithm): base64-encode the
HMAC-SHA512, keyed by the decoded secret, of the path bytes followed by the
SHA-256 of the UTF-8 bytes of nonce ++ body. Stated independently of the
implementation so the pipeline can be compared against it. -/
def specSignature (secretKey : List Nat) (path nonce body : String) : String :=
  base64Encode (hmacSha512 secretKey (strBytes path ++ sha256 (strBytes (nonce ++ body))))

/-! ### The operations (`kraken/account.rs`, `kraken/markets.rs`)

Each Rust method performs one HTTP round trip; its outcome is the explicit
`RespOutcome` parameter here, so the method becomes a pure function of the
client's secret, the generated nonce, its arguments and that outcome. -/

/-- The HTTP round trip's outcome as the operations distinguish it:
`send()` failure (wrapped as `HttpError`), `.json()` decode failure (wrapped
as `ParseError` with the library's message), or a parsed JSON document. -/
inductive RespOutcome where
  | httpErr (e : String)
  | badJson (e : String)
  | jsonOk (j : Json)

/-- `OrderResponse` from `kraken/account.rs`. -/
structure OrderResponse where
  txid : List String
  description : String
deriving DecidableEq, Repr

/-- `MarketError` from `src/market.rs`. -/
structure MarketError where
  message : String
deriving DecidableEq, Repr

/-- The error-array check repeated verbatim in `edit_order`, `cancel_order`,
`get_balance` and `add_order`: when the envelope's `error` field is a
non-empty array, the operation fails with a `ParseError` whose message embeds
the `Debug` rendering of that array; when `error` is absent, not an array, or
empty, the check passes. -/
def checkKrakenErrors (json : Json) : Option KrakenError :=
  match (json.get "error").bind Json.as_array with
  | some errors =>
    if !errors.isEmpty then
      some (.ParseError ("Kraken API error: " ++ rustDebugVec errors))
    else none
  | none => none

/-- `KrakenClient::edit_order`. The nonce and the HTTP outcome are explicit
inputs; `price` and `volume` reach the body through `f64::to_string`, so they
are taken as the already-rendered strings (no verified property depends on
Rust's float formatting). -/
def edit_order (api_secret nonce txid pair side price volume : String)
    (new_userref : Option String) (resp : RespOutcome) :
    Except KrakenError OrderResponse :=
  let side_lower := rustLowercase side
  if side_lower != "buy" && side_lower != "sell" then
    .error (.ParseError "Side must be 'buy' or 'sell'")
  else
    let params := [("nonce", nonce), ("ordertype", "limit"), ("type", side_lower),
                   ("volume", volume), ("price", price), ("pair", pair),
                   ("txid", txid)] ++
      (match new_userref with
       | some userref => [("userref", userref)]
       | none => [])
    let body := String.intercalate "&" (params.map (fun kv => kv.1 ++ "=" ++ kv.2))
    let path := "/0/private/EditOrder"
    let message := create_signature_message path nonce body
    match sign_message api_secret message with
    | .error e => .error e
    | .ok _signature =>
      match resp with
      | .httpErr e => .error (.HttpError e)
      | .badJson e => .error (.ParseError e)
      | .jsonOk json =>
        match checkKrakenErrors json with
        | some e => .error e
        | none =>
          match json.get "result" with
          | none => .error (.MissingField "result")
          | some result =>
            match (result.get "txid").bind Json.as_array with
            | none => .error (.ParseError "Missing txid array")
            | some txids =>
              let txid_list := txids.filterMap Json.as_str
              let description :=
                (((result.get "descr").bind (fun d => d.get "order")).bind
                  Json.as_str).getD "No description available"
              .ok { txid := txid_list, description := description }

/-- `KrakenClient::cancel_order`. -/
def cancel_order (api_secret nonce txid : String) (resp : RespOutcome) :
    Except KrakenError Bool :=
  let body := "nonce=" ++ nonce ++ "&txid=" ++ txid
  let path := "/0/private/CancelOrder"
  let message := create_signature_message path nonce body
  match sign_message api_secret message with
  | .error e => .error e
  | .ok _signature =>
    match resp with
    | .httpErr e => .error (.HttpError e)
    | .badJson e => .error (.ParseError e)
    | .jsonOk json =>
      match checkKrakenErrors json with
      | some e => .error e
      | none =>
        match json.get "result" with
        | none => .error (.MissingField "result")
        | some result =>
          match (result.get "count").bind Json.as_u64 with
          | none => .error (.ParseError "Missing count field")
          | some count => .ok (decide (count > 0))

/-- `KrakenClient::get_balance`. The `HashMap` the Rust code collects into is
modelled as the association list in result-object order; with distinct keys
(always the case for a parsed JSON object) the two have the same entries. -/
def get_balance (api_secret nonce : String) (resp : RespOutcome) :
    Except KrakenError (List (String × ℚ)) :=
  let body := "nonce=" ++ nonce
  let path := "/0/private/Balance"
  let message := create_signature_message path nonce body
  match sign_message api_secret message with
  | .error e => .error e
  | .ok _signature =>
    match resp with
    | .httpErr e => .error (.HttpError e)
    | .badJson e => .error (.ParseError e)
    | .jsonOk json =>
      match checkKrakenErrors json with
      | some e => .error e
      | none =>
        match json.get "result" with
        | none => .error (.MissingField "result")
        | some result =>
          match result.as_object with
          | none => .error (.ParseError "Expected result to be an object")
          | some fields =>
            .ok (fields.filterMap
              (fun kv => ((kv.2.as_str).bind parseF64).map (fun val => (kv.1, val))))

/-- `KrakenClient::add_order`. Float arguments are taken as their rendered
strings, as in `edit_order`. -/
def add_order (api_secret nonce pair side price volume : String)
    (resp : RespOutcome) : Except KrakenError OrderResponse :=
  let side_lower := rustLowercase side
  if side_lower != "buy" && side_lower != "sell" then
    .error (.ParseError "Side must be 'buy' or 'sell'")
  else
    let params := [("nonce", nonce), ("ordertype", "limit"), ("type", side_lower),
                   ("volume", volume), ("price", price), ("pair", pair)]
    let body := String.intercalate "&" (params.map (fun kv => kv.1 ++ "=" ++ kv.2))
    let path := "/0/private/AddOrder"
    let message := create_signature_message path nonce body
    match sign_message api_secret message with
    | .error e => .error e
    | .ok _signature =>
      match resp with
      | .httpErr e => .error (.HttpError e)
      | .badJson e => .error (.ParseError e)
      | .jsonOk json =>
        match checkKrakenErrors json with
        | some e => .error e
        | none =>
          match json.get "result" with
          | none => .error (.MissingField "result")
          | some result =>
            match (result.get "txid").bind Json.as_array with
            | none => .error (.ParseError "Missing txid array")
            | some txids =>
              let txid_list := txids.filterMap Json.as_str
              let description :=
                (((result.get "descr").bind (fun d => d.get "order")).bind
                  Json.as_str).getD "No description available"
              .ok { txid := txid_list, description := description }

/-- `KrakenClient::get_ticker` (`kraken/markets.rs`, private helper): a public
GET with no signing; requires `json["result"]` to be an object and returns its
entries. The Rust code copies them into a `HashMap`, whose iteration order is
unspecified — modelled as the object's own order; theorems that read "the
first value" are stated over single-entry objects, where every order agrees.
Note this helper never consults the envelope's `error` array. -/
def get_ticker (resp : RespOutcome) : Except KrakenError (List (String × Json)) :=
  match resp with
  | .httpErr e => .error (.HttpError e)
  | .badJson e => .error (.ParseError ("Failed to parse JSON: " ++ e))
  | .jsonOk json =>
    match (json.atKey "result").as_object with
    | some result => .ok result
    | none => .error (.ParseError "Missing result field")

/-- `KrakenClient::get_bid`: the first pair object's `b[0]`, which must be a
JSON string, parsed as a float with `0.0` on parse failure. -/
def get_bid (resp : RespOutcome) : Except KrakenError ℚ :=
  match get_ticker resp with
  | .error e => .error e
  | .ok data =>
    match data.head? with
    | none => .error (.ParseError "Missing pair data")
    | some kv =>
      match ((kv.2.atKey "b").atIdx 0).as_str with
      | none => .error (.ParseError "Missing bid")
      | some bid => .ok ((parseF64 bid).getD 0)

/-- `KrakenClient::get_ask`: as `get_bid` with `a[0]`. -/
def get_ask (resp : RespOutcome) : Except KrakenError ℚ :=
  match get_ticker resp with
  | .error e => .error e
  | .ok data =>
    match data.head? with
    | none => .error (.ParseError "Missing pair data")
    | some kv =>
      match ((kv.2.atKey "a").atIdx 0).as_str with
      | none => .error (.ParseError "Missing ask")
      | some ask => .ok ((parseF64 ask).getD 0)

/-- `KrakenClient::get_spread`: ask minus bid, from two independent round
trips (hence two `RespOutcome` inputs). -/
def get_spread (respBid respAsk : RespOutcome) : Except KrakenError ℚ :=
  match get_bid respBid with
  | .error e => .error e
  | .ok bid =>
    match get_ask respAsk with
    | .error e => .error e
    | .ok ask => .ok (ask - bid)

/-- `KrakenClient::get_orderbook` (`kraken/markets.rs`): the first pair
object's `b` and `a` arrays with each string entry parsed as a float and
non-parsing entries dropped. -/
def get_orderbook (resp : RespOutcome) : Except KrakenError (List ℚ × List ℚ) :=
  match get_ticker resp with
  | .error e => .error e
  | .ok data =>
    match data.head? with
    | none => .error (.ParseError "Missing pair data")
    | some kv =>
      match (kv.2.atKey "b").as_array with
      | none => .error (.ParseError "Missing bids")
      | some bidArr =>
        match (kv.2.atKey "a").as_array with
        | none => .error (.ParseError "Missing asks")
        | some askArr =>
          .ok (bidArr.filterMap (fun b => (b.as_str).bind parseF64),
               askArr.filterMap (fun a => (a.as_str).bind parseF64))

/-- One `bids`/`asks` level of `Market::get_orderbook` (`src/market.rs`):
`level[0]` and `level[1]` must be numeric strings; the level contributes
`price * volume`, and is dropped when either fails to parse. -/
def levelProduct (level : Json) : Option ℚ :=
  match (level.atIdx 0).as_str with
  | none => none
  | some ps =>
    match parseF64 ps with
    | none => none
    | some price =>
      match (level.atIdx 1).as_str with
      | none => none
      | some vs =>
        match parseF64 vs with
        | none => none
        | some volume => some (price * volume)

/-- `Market::get_orderbook` (`src/market.rs`, the secondary public client):
queries `/0/public/Depth`, requires `json["result"]` to be an object, takes
its first pair object (serde_json's map preserves order, so `head` is exact),
and maps each `bids`/`asks` level to `price * volume` via `levelProduct`.
Transport and JSON-decode failures both convert to `MarketError` carrying the
library's message, modelled by the `Except String` input. -/
def market_get_orderbook (resp : Except String Json) :
    Except MarketError (List ℚ × List ℚ) :=
  match resp with
  | .error e => .error ⟨e⟩
  | .ok json =>
    match (json.atKey "result").as_object with
    | none => .error ⟨"Missing result field"⟩
    | some result =>
      match result.head? with
      | none => .error ⟨"Missing pair data"⟩
      | some kv =>
        match (kv.2.atKey "bids").as_array with
        | none => .error ⟨"Missing bids"⟩
        | some bids =>
          match (kv.2.atKey "asks").as_array with
          | none => .error ⟨"Missing asks"⟩
          | some asks =>
            .ok (bids.filterMap levelProduct, asks.filterMap levelProduct)

/-! ### Statement-level helpers -/

/-- The wire envelope (`ApiEnvelope`): an `error` array of strings and an
optional `result` value. -/
def mkEnvelope (errs : List String) (result : Option Json) : Json :=
  .jobj (("error", Json.jarr (errs.map Json.jstr)) ::
    (match result with
     | some r => [("result", r)]
     | none => []))

/-- The nonce sequence one client returns across a sequence of wall-clock
readings: `generate_nonce` keeps no state, so the sequence is just the
pointwise image of the readings. -/
def nonceSeq (clocks : List Nat) : List String :=
  clocks.map generate_nonce

/-- A nonce string as the unsigned integer the exchange compares (nonces are
decimal digit strings, valued by `digitsVal`). -/
def nonceVal (s : String) : Nat :=
  digitsVal s.data

/-- Modelled from the spec (§4.1, §8): the returned nonce values, read as
integers, form a strictly increasing sequence — which also rules out
duplicates. -/
def noncesStrictlyIncreasing (ns : List String) : Prop :=
  List.Chain' (· < ·) (ns.map nonceVal)

/-- The claim's example ticker response: one pair object under pairAlias
`XXBTZUSD` with `b = ["30000.1", "1", "1.0"]` and `a = ["30000.5", "2",
"2.0"]`. -/
def exampleTickerResp : RespOutcome :=
  .jsonOk (mkEnvelope [] (some (.jobj [("XXBTZUSD", .jobj
    [("b", .jarr [.jstr "30000.1", .jstr "1", .jstr "1.0"]),
     ("a", .jarr [.jstr "30000.5", .jstr "2", .jstr "2.0"])])])))

/-! ## Helper lemmas -/

theorem get_jobj (fields : List (String × Json)) (key : String) :
    (Json.jobj fields).get key = fields.lookup key := rfl

theorem get_error_mkEnvelope (errs : List String) (r : Option Json) :
    (mkEnvelope errs r).get "error" = some (Json.jarr (errs.map Json.jstr)) := rfl

theorem get_result_mkEnvelope (errs : List String) (r : Json) :
    (mkEnvelope errs (some r)).get "result" = some r := rfl

theorem checkKrakenErrors_empty (r : Option Json) :
    checkKrakenErrors (mkEnvelope [] r) = none := rfl

theorem checkKrakenErrors_nonempty (errs : List String) (r : Option Json)
    (h : errs ≠ []) :
    checkKrakenErrors (mkEnvelope errs r) =
      some (.ParseError ("Kraken API error: " ++ rustDebugVec (errs.map Json.jstr))) := by
  cases errs with
  | nil => exact absurd rfl h
  | cons e es => rfl

theorem sign_message_ok (api_secret : String) (key message : List Nat)
    (h : base64Decode api_secret = some key) :
    sign_message api_secret message = .ok (base64Encode (hmacSha512 key message)) := by
  simp [sign_message, h]

theorem parseF64_eval_half : parseF64 "0.5" = some (1 / 2) := by
  have h : parseF64Parts "0.5" = some (5, -1) := rfl
  rw [parseF64, h]
  norm_num

theorem parseF64_eval_oneQuarter : parseF64 "1.25" = some (5 / 4) := by
  have h : parseF64Parts "1.25" = some (125, -2) := rfl
  rw [parseF64, h]
  norm_num

theorem parseF64_eval_bid : parseF64 "30000.1" = some (300001 / 10) := by
  have h : parseF64Parts "30000.1" = some (300001, -1) := rfl
  rw [parseF64, h]
  norm_num

theorem parseF64_eval_ask : parseF64 "30000.5" = some (300005 / 10) := by
  have h : parseF64Parts "30000.5" = some (300005, -1) := rfl
  rw [parseF64, h]
  norm_num

theorem length_filterMap_eq_countP (f : α → Option β) (l : List α) :
    (l.filterMap f).length = l.countP (fun a => (f a).isSome) := by
  induction l with
  | nil => rfl
  | cons x xs ih =>
    cases hfx : f x <;> simp [List.filterMap_cons, hfx, List.countP_cons, ih]

theorem filterMap_as_str_jstr (txs : List String) :
    (txs.map Json.jstr).filterMap Json.as_str = txs := by
  induction txs with
  | nil => rfl
  | cons t ts ih => simp [Json.as_str, ih]

theorem filterMap_as_str_comp_jstr (txs : List String) :
    txs.filterMap (Json.as_str ∘ Json.jstr) = txs := by
  induction txs with
  | nil => rfl
  | cons t ts ih => simp [Function.comp, Json.as_str, ih]

theorem as_str_eq_some (j : Json) (s : String) : j.as_str = some s ↔ j = .jstr s := by
  cases j <;> simp [Json.as_str]

theorem get_balance_ok (api_secret nonce : String) (key : List Nat)
    (hsec : base64Decode api_secret = some key) (fields : List (String × Json)) :
    get_balance api_secret nonce (.jsonOk (mkEnvelope [] (some (.jobj fields)))) =
      .ok (fields.filterMap
        (fun kv => ((kv.2.as_str).bind parseF64).map (fun val => (kv.1, val)))) := by
  simp [get_balance, sign_message, hsec, checkKrakenErrors_empty,
    get_result_mkEnvelope, Json.as_object]

theorem get_ticker_single (errs : List String) (pairAlias : String) (pd : Json) :
    get_ticker (.jsonOk (mkEnvelope errs (some (.jobj [(pairAlias, pd)])))) =
      .ok [(pairAlias, pd)] := rfl

/-! ## Claim theorems -/

/-- C1: for every valid-base64 secret and all path, nonce and body strings,
the signing pipeline — `create_signature_message` followed by `sign_message`
— returns exactly the spec's formula `specSignature`: the base64 encoding of
the HMAC-SHA512, keyed by the base64-decoded secret, of the path's UTF-8
bytes followed by the SHA-256 digest of the UTF-8 bytes of the nonce string
concatenated with the body string. -/
theorem signing_pipeline_matches_spec (api_secret path nonce body : String)
    (key : List Nat) (hsec : base64Decode api_secret = some key) :
    sign_message api_secret (create_signature_message path nonce body) =
      .ok (specSignature key path nonce body) := by
  simp [sign_message, hsec, create_signature_message, specSignature]

theorem signing_pipeline_matches_spec_witness :
    base64Decode "a2V5" = some [107, 101, 121] ∧
      sign_message "a2V5"
          (create_signature_message "/0/private/Balance" "1616492376594"
            "nonce=1616492376594") =
        .ok (specSignature [107, 101, 121] "/0/private/Balance" "1616492376594"
          "nonce=1616492376594") :=
  ⟨rfl, signing_pipeline_matches_spec _ _ _ _ _ rfl⟩

/-- C2: the claim fails on the code — `generate_nonce` keeps no state and
returns the clock reading itself, so two calls that read the same clock
millisecond return the *same* nonce string and the sequence is not strictly
increasing, contrary to the spec's monotonicity requirement (§4.1, §8). The
third conjunct evaluates the backwards-clock case, where the second nonce is
numerically smaller. -/
theorem generate_nonce_repeats_within_millisecond :
    nonceSeq [1700000000000, 1700000000000] = ["1700000000000", "1700000000000"] ∧
      ¬ noncesStrictlyIncreasing (nonceSeq [1700000000000, 1700000000000]) ∧
      nonceSeq [1700000000000, 1699999999999] = ["1700000000000", "1699999999999"] := by
  refine ⟨rfl, ?_, rfl⟩
  intro hmono
  unfold noncesStrictlyIncreasing nonceSeq at hmono
  simp only [List.map] at hmono
  exact lt_irrefl _ (List.chain'_pair.mp hmono)

/-- C3 counterexample: on the claim's own envelope
`\x7b"error":["EGeneral:Invalid arguments"],"result":null\x7d`, `get_balance`
fails with the generic `ParseError` constructor — the same constructor
JSON-decode failures are wrapped in, so a "generic parse failure" — carrying
one formatted message string, not a dedicated exchange-error value with the
verbatim array (the client's error type has no such variant); and the public
`get_ticker` ignores the error array entirely, failing with a plain
"Missing result field" parse error that carries no exchange message at all. -/
theorem exchange_error_counterexample :
    get_balance "" "1"
        (.jsonOk (mkEnvelope ["EGeneral:Invalid arguments"] (some .null))) =
        .error (.ParseError "Kraken API error: [String(\"EGeneral:Invalid arguments\")]") ∧
      isParseErrorVariant
        (.ParseError "Kraken API error: [String(\"EGeneral:Invalid arguments\")]") = true ∧
      get_ticker (.jsonOk (mkEnvelope ["EGeneral:Invalid arguments"] (some .null))) =
        .error (.ParseError "Missing result field") :=
  ⟨rfl, rfl, rfl⟩

/-- C3 (amended): with a decodable secret, every private operation
(`get_balance`, `cancel_order`, `add_order`, `edit_order`), given an envelope
whose error array is non-empty, fails with the generic `ParseError` variant
whose message is `"Kraken API error: "` followed by the `Debug` rendering of
the array — the same conclusion for every value of the `result` field, so
`result` is never interpreted; the ticker-based public operations do not
consult the error array at all and fail with
`ParseError "Missing result field"` whenever `result` is not an object (in
particular on the claim's `result: null`). -/
theorem exchange_error_amended (api_secret nonce txid pair price volume : String)
    (new_userref : Option String) (key : List Nat)
    (hsec : base64Decode api_secret = some key)
    (errs : List String) (hne : errs ≠ []) (result : Option Json) :
    get_balance api_secret nonce (.jsonOk (mkEnvelope errs result)) =
        .error (.ParseError ("Kraken API error: " ++ rustDebugVec (errs.map Json.jstr))) ∧
      cancel_order api_secret nonce txid (.jsonOk (mkEnvelope errs result)) =
        .error (.ParseError ("Kraken API error: " ++ rustDebugVec (errs.map Json.jstr))) ∧
      add_order api_secret nonce pair "buy" price volume
          (.jsonOk (mkEnvelope errs result)) =
        .error (.ParseError ("Kraken API error: " ++ rustDebugVec (errs.map Json.jstr))) ∧
      edit_order api_secret nonce txid pair "buy" price volume new_userref
          (.jsonOk (mkEnvelope errs result)) =
        .error (.ParseError ("Kraken API error: " ++ rustDebugVec (errs.map Json.jstr))) ∧
      get_ticker (.jsonOk (mkEnvelope errs (some .null))) =
        .error (.ParseError "Missing result field") := by
  refine ⟨?_, ?_, ?_, ?_, rfl⟩ <;>
    simp [get_balance, cancel_order, add_order, edit_order, sign_message, hsec,
      checkKrakenErrors_nonempty errs result hne,
      show rustLowercase "buy" = "buy" from rfl]

theorem exchange_error_amended_witness :
    get_balance "" "1"
        (.jsonOk (mkEnvelope ["EGeneral:Invalid arguments"] (some .null))) =
      .error (.ParseError
        ("Kraken API error: " ++
          rustDebugVec (["EGeneral:Invalid arguments"].map Json.jstr))) :=
  (exchange_error_amended "" "1" "TXID-1" "XXBTZUSD" "30000" "1" none [] rfl
    ["EGeneral:Invalid arguments"] (List.cons_ne_nil _ _) (some .null)).1

/-- C4 counterexample: with side `"FOO"`, `add_order` fails — but with the
generic `ParseError` constructor (the same constructor parse failures use),
not a dedicated validation-error value, which the client's error type does
not have. -/
theorem side_validation_counterexample :
    add_order "" "1" "XXBTZUSD" "FOO" "30000" "1" (.jsonOk .null) =
        .error (.ParseError "Side must be 'buy' or 'sell'") ∧
      isParseErrorVariant (.ParseError "Side must be 'buy' or 'sell'") = true :=
  ⟨rfl, rfl⟩

/-- C4 (amended): a side whose lowercase form is neither "buy" nor "sell"
makes `add_order` and `edit_order` fail with
`ParseError "Side must be 'buy' or 'sell'"` — the identical result for every
secret, nonce and response outcome, so the failure precedes and is
independent of nonce use, signing and the network outcome; and for a side
whose lowercase form is "buy" or "sell" the code's validation guard
evaluates to false, i.e. the validation passes. -/
theorem side_validation_amended (side : String) :
    (rustLowercase side ≠ "buy" → rustLowercase side ≠ "sell" →
      ∀ api_secret nonce txid pair price volume new_userref resp,
        add_order api_secret nonce pair side price volume resp =
            .error (.ParseError "Side must be 'buy' or 'sell'") ∧
          edit_order api_secret nonce txid pair side price volume new_userref resp =
            .error (.ParseError "Side must be 'buy' or 'sell'")) ∧
    (rustLowercase side = "buy" ∨ rustLowercase side = "sell" →
      (rustLowercase side != "buy" && rustLowercase side != "sell") = false) := by
  constructor
  · intro h1 h2 api_secret nonce txid pair price volume new_userref resp
    have hguard : (rustLowercase side != "buy" && rustLowercase side != "sell") = true := by
      simp [h1, h2]
    exact ⟨by simp [add_order, hguard], by simp [edit_order, hguard]⟩
  · rintro (h | h) <;> simp [h]

theorem side_validation_amended_witness :
    add_order "sec" "1" "XXBTZUSD" "FOO" "30000" "1" (.httpErr "down") =
        .error (.ParseError "Side must be 'buy' or 'sell'") ∧
      (rustLowercase "BuY" != "buy" && rustLowercase "BuY" != "sell") = false :=
  ⟨((side_validation_amended "FOO").1 (by decide) (by decide)
      "sec" "1" "TXID-1" "XXBTZUSD" "30000" "1" none (.httpErr "down")).1,
    (side_validation_amended "BuY").2 (Or.inl rfl)⟩

/-- C5 counterexample: on a successful envelope whose `result` lacks `count`,
`cancel_order` fails with `ParseError "Missing count field"` — the generic
parse constructor, not the dedicated `MissingField` variant the claim
names. -/
theorem cancel_order_missing_count_counterexample :
    cancel_order "" "1" "TXID-1" (.jsonOk (mkEnvelope [] (some (.jobj [])))) =
        .error (.ParseError "Missing count field") ∧
      isMissingFieldVariant (.ParseError "Missing count field") = false :=
  ⟨rfl, rfl⟩

/-- C5 (amended): on a successful envelope (empty error array, `result`
present as an object), `cancel_order` returns `false` when `result.count` is
the integer 0, `true` when it is a positive integer in u64 range, and fails
with `ParseError "Missing count field"` — not the `MissingField` variant —
when `count` is absent. -/
theorem cancel_order_count_amended (api_secret nonce txid : String)
    (key : List Nat) (hsec : base64Decode api_secret = some key)
    (fields : List (String × Json)) :
    (fields.lookup "count" = some (.jint 0) →
      cancel_order api_secret nonce txid
          (.jsonOk (mkEnvelope [] (some (.jobj fields)))) = .ok false) ∧
    (∀ k : Int, 0 < k → k < 2 ^ 64 → fields.lookup "count" = some (.jint k) →
      cancel_order api_secret nonce txid
          (.jsonOk (mkEnvelope [] (some (.jobj fields)))) = .ok true) ∧
    (fields.lookup "count" = none →
      cancel_order api_secret nonce txid
          (.jsonOk (mkEnvelope [] (some (.jobj fields)))) =
        .error (.ParseError "Missing count field")) := by
  refine ⟨fun h0 => ?_, fun k hk hk64 hcount => ?_, fun habs => ?_⟩
  · simp [cancel_order, sign_message, hsec, checkKrakenErrors_empty,
      get_result_mkEnvelope, get_jobj, h0, Json.as_u64]
  · simp only [cancel_order, sign_message_ok _ _ _ hsec, checkKrakenErrors_empty,
      get_result_mkEnvelope, get_jobj, hcount, Option.some_bind, Json.as_u64]
    have hcond : (0 ≤ k ∧ k < 2 ^ 64) := ⟨le_of_lt hk, hk64⟩
    rw [if_pos hcond]
    have : decide (0 < k.toNat) = true := by
      simp
      omega
    simp [this]
    omega
  · simp [cancel_order, sign_message, hsec, checkKrakenErrors_empty,
      get_result_mkEnvelope, get_jobj, habs]

theorem cancel_order_count_amended_witness :
    cancel_order "" "1" "TXID-1"
        (.jsonOk (mkEnvelope [] (some (.jobj [("count", .jint 1)])))) = .ok true :=
  (cancel_order_count_amended "" "1" "TXID-1" [] rfl
    [("count", .jint 1)]).2.1 1 (by decide) (by decide) rfl

/-- C6: on a successful envelope whose `result` is an object, `get_balance`
succeeds and the returned mapping contains exactly the pairs whose value is a
JSON string parseable as a float, mapped to that float, every other entry
silently dropped; on the claim's example object the mapping is XBT ↦ 0.5 and
ETH ↦ 1.25 with the malformed USD entry dropped, and an all-malformed object
yields the empty mapping. -/
theorem get_balance_keeps_exactly_parseable (api_secret nonce : String)
    (key : List Nat) (hsec : base64Decode api_secret = some key)
    (fields : List (String × Json)) :
    (∃ bal, get_balance api_secret nonce
          (.jsonOk (mkEnvelope [] (some (.jobj fields)))) = .ok bal ∧
        ∀ k q, (k, q) ∈ bal ↔ ∃ s, (k, Json.jstr s) ∈ fields ∧ parseF64 s = some q) ∧
      get_balance api_secret nonce (.jsonOk (mkEnvelope [] (some (.jobj
          [("XBT", .jstr "0.5"), ("USD", .jstr "not-a-number"),
           ("ETH", .jstr "1.25")])))) =
        .ok [("XBT", 1 / 2), ("ETH", 5 / 4)] ∧
      get_balance api_secret nonce (.jsonOk (mkEnvelope [] (some (.jobj
          [("USD", .jstr "not-a-number")])))) = .ok [] := by
  refine ⟨⟨_, get_balance_ok _ _ _ hsec fields, ?_⟩, ?_, ?_⟩
  · intro k q
    simp only [List.mem_filterMap, Option.map_eq_some', Option.bind_eq_some,
      as_str_eq_some, Prod.mk.injEq]
    constructor
    · rintro ⟨⟨k', v⟩, hmem, val, ⟨s, rfl, hp⟩, rfl, rfl⟩
      exact ⟨s, hmem, hp⟩
    · rintro ⟨s, hmem, hp⟩
      exact ⟨(k, Json.jstr s), hmem, q, ⟨s, rfl, hp⟩, rfl, rfl⟩
  · rw [get_balance_ok _ _ _ hsec]
    simp [Json.as_str, parseF64_eval_half, parseF64_eval_oneQuarter,
      show parseF64 "not-a-number" = none from rfl]
  · rw [get_balance_ok _ _ _ hsec]
    simp [Json.as_str, show parseF64 "not-a-number" = none from rfl]

theorem get_balance_keeps_exactly_parseable_witness :
    get_balance "" "1" (.jsonOk (mkEnvelope [] (some (.jobj
        [("XBT", .jstr "0.5"), ("USD", .jstr "not-a-number"),
         ("ETH", .jstr "1.25")])))) =
      .ok [("XBT", 1 / 2), ("ETH", 5 / 4)] :=
  (get_balance_keeps_exactly_parseable "" "1" [] rfl []).2.1

/-- C7: for a ticker response whose result holds one pair object, `get_bid`
parses the string at `b[0]` as a float with 0.0 on parse failure, `get_ask`
does the same for `a[0]`, and `get_spread` returns ask minus bid; on the
claim's example response the results are 30000.1, 30000.5 and exactly 0.4
(the model computes with the exact rational values of the quoted decimals,
which is what "within floating-point tolerance" allows). -/
theorem ticker_bid_ask_spread (pairAlias : String) (pd : Json) :
    (∀ s, (pd.atKey "b").atIdx 0 = .jstr s →
      get_bid (.jsonOk (mkEnvelope [] (some (.jobj [(pairAlias, pd)])))) =
        .ok ((parseF64 s).getD 0)) ∧
    (∀ s, (pd.atKey "a").atIdx 0 = .jstr s →
      get_ask (.jsonOk (mkEnvelope [] (some (.jobj [(pairAlias, pd)])))) =
        .ok ((parseF64 s).getD 0)) ∧
    get_bid exampleTickerResp = .ok (300001 / 10) ∧
    get_ask exampleTickerResp = .ok (300005 / 10) ∧
    get_spread exampleTickerResp exampleTickerResp = .ok (2 / 5) := by
  have hbid : get_bid exampleTickerResp = .ok (300001 / 10) := by
    simp [exampleTickerResp, get_bid, get_ticker_single, Json.atKey, Json.get,
      Json.atIdx, Json.as_str, List.lookup, parseF64_eval_bid]
  have hask : get_ask exampleTickerResp = .ok (300005 / 10) := by
    simp [exampleTickerResp, get_ask, get_ticker_single, Json.atKey, Json.get,
      Json.atIdx, Json.as_str, List.lookup, parseF64_eval_ask]
  refine ⟨fun s hb => ?_, fun s ha => ?_, hbid, hask, ?_⟩
  · simp [get_bid, get_ticker_single, hb, Json.as_str]
  · simp [get_ask, get_ticker_single, ha, Json.as_str]
  · rw [get_spread, hbid, hask]
    norm_num

theorem ticker_bid_ask_spread_witness :
    get_bid (.jsonOk (mkEnvelope [] (some (.jobj [("XXBTZUSD", .jobj
        [("b", .jarr [.jstr "29999.9"])])])))) =
      .ok ((parseF64 "29999.9").getD 0) :=
  (ticker_bid_ask_spread "XXBTZUSD" (.jobj [("b", .jarr [.jstr "29999.9"])])).1
    "29999.9" rfl

/-- C8 counterexample: on a successful envelope whose `result` lacks `txid`,
`add_order` fails with `ParseError "Missing txid array"` — the generic parse
constructor, not the `MissingField` variant the claim names. -/
theorem add_order_missing_txid_counterexample :
    add_order "" "1" "XXBTZUSD" "buy" "30000" "1"
        (.jsonOk (mkEnvelope [] (some (.jobj [])))) =
        .error (.ParseError "Missing txid array") ∧
      isMissingFieldVariant (.ParseError "Missing txid array") = false :=
  ⟨rfl, rfl⟩

/-- C8 (amended): on a successful envelope, `add_order` and `edit_order` fail
with `ParseError "Missing txid array"` — not `MissingField` — when
`result.txid` is missing (or not an array); when `txid` is an array of
strings but `result.descr.order` is absent the call still succeeds with the
fixed placeholder description "No description available"; and when both are
present the `OrderResponse` carries the txid strings and the `descr.order`
string. -/
theorem order_result_decoding_amended (api_secret nonce txid pair price volume : String)
    (new_userref : Option String) (key : List Nat)
    (hsec : base64Decode api_secret = some key)
    (fields : List (String × Json)) :
    ((fields.lookup "txid").bind Json.as_array = none →
      add_order api_secret nonce pair "buy" price volume
          (.jsonOk (mkEnvelope [] (some (.jobj fields)))) =
          .error (.ParseError "Missing txid array") ∧
        edit_order api_secret nonce txid pair "buy" price volume new_userref
            (.jsonOk (mkEnvelope [] (some (.jobj fields)))) =
          .error (.ParseError "Missing txid array")) ∧
    (∀ txs : List String, fields.lookup "txid" = some (.jarr (txs.map .jstr)) →
      ((fields.lookup "descr").bind (fun d => d.get "order")).bind Json.as_str = none →
      add_order api_secret nonce pair "buy" price volume
          (.jsonOk (mkEnvelope [] (some (.jobj fields)))) =
          .ok ⟨txs, "No description available"⟩ ∧
        edit_order api_secret nonce txid pair "buy" price volume new_userref
            (.jsonOk (mkEnvelope [] (some (.jobj fields)))) =
          .ok ⟨txs, "No description available"⟩) ∧
    (∀ (txs : List String) (d : String),
      fields.lookup "txid" = some (.jarr (txs.map .jstr)) →
      ((fields.lookup "descr").bind (fun dd => dd.get "order")).bind Json.as_str = some d →
      add_order api_secret nonce pair "buy" price volume
          (.jsonOk (mkEnvelope [] (some (.jobj fields)))) = .ok ⟨txs, d⟩ ∧
        edit_order api_secret nonce txid pair "buy" price volume new_userref
            (.jsonOk (mkEnvelope [] (some (.jobj fields)))) = .ok ⟨txs, d⟩) := by
  have hlow : rustLowercase "buy" = "buy" := rfl
  refine ⟨fun habs => ⟨?_, ?_⟩, fun txs htx hdesc => ⟨?_, ?_⟩,
    fun txs d htx hdesc => ⟨?_, ?_⟩⟩
  · simp [add_order, hlow, sign_message, hsec, checkKrakenErrors_empty,
      get_result_mkEnvelope, get_jobj, habs]
  · simp [edit_order, hlow, sign_message, hsec, checkKrakenErrors_empty,
      get_result_mkEnvelope, get_jobj, habs]
  · simp [add_order, hlow, sign_message, hsec, checkKrakenErrors_empty,
      get_result_mkEnvelope, get_jobj, htx, hdesc, Json.as_array,
      filterMap_as_str_jstr, filterMap_as_str_comp_jstr]
  · simp [edit_order, hlow, sign_message, hsec, checkKrakenErrors_empty,
      get_result_mkEnvelope, get_jobj, htx, hdesc, Json.as_array,
      filterMap_as_str_jstr, filterMap_as_str_comp_jstr]
  · simp [add_order, hlow, sign_message, hsec, checkKrakenErrors_empty,
      get_result_mkEnvelope, get_jobj, htx, hdesc, Json.as_array,
      filterMap_as_str_jstr, filterMap_as_str_comp_jstr]
  · simp [edit_order, hlow, sign_message, hsec, checkKrakenErrors_empty,
      get_result_mkEnvelope, get_jobj, htx, hdesc, Json.as_array,
      filterMap_as_str_jstr, filterMap_as_str_comp_jstr]

theorem order_result_decoding_amended_witness :
    add_order "" "1" "XXBTZUSD" "buy" "30000" "1"
        (.jsonOk (mkEnvelope [] (some (.jobj
          [("txid", .jarr [.jstr "OABC-123"]),
           ("descr", .jobj [("order", .jstr "buy 1.0 XBTUSD @ limit 30000")])])))) =
      .ok ⟨["OABC-123"], "buy 1.0 XBTUSD @ limit 30000"⟩ :=
  ((order_result_decoding_amended "" "1" "TXID-1" "XXBTZUSD" "30000" "1" none [] rfl
      [("txid", .jarr [.jstr "OABC-123"]),
       ("descr", .jobj [("order", .jstr "buy 1.0 XBTUSD @ limit 30000")])]).2.2
    ["OABC-123"] "buy 1.0 XBTUSD @ limit 30000" rfl rfl).1

/-- C9: for a response whose (single-entry) `result` pair object carries `b`
and `a` arrays, `get_orderbook` succeeds with exactly the parsed values of
the numeric-string entries in order — entries that fail to parse are dropped
rather than failing the call — and the returned lengths equal the number of
successfully parsed entries. The final conjunct records the same
drop-not-fail behaviour for the secondary `Market::get_orderbook` in
`src/market.rs`, where each retained `bids`/`asks` level contributes
`price * volume` via `levelProduct`. -/
theorem orderbook_parses_and_drops (pairAlias : String) (pd : Json)
    (bidEntries askEntries : List Json)
    (hb : pd.atKey "b" = .jarr bidEntries)
    (ha : pd.atKey "a" = .jarr askEntries) :
    (get_orderbook (.jsonOk (mkEnvelope [] (some (.jobj [(pairAlias, pd)])))) =
        .ok (bidEntries.filterMap (fun b => (b.as_str).bind parseF64),
             askEntries.filterMap (fun a => (a.as_str).bind parseF64)) ∧
      (bidEntries.filterMap (fun b => (b.as_str).bind parseF64)).length =
        bidEntries.countP (fun b => ((b.as_str).bind parseF64).isSome) ∧
      (askEntries.filterMap (fun a => (a.as_str).bind parseF64)).length =
        askEntries.countP (fun a => ((a.as_str).bind parseF64).isSome)) ∧
    (∀ (alias2 : String) (pd2 : Json) (bidLv askLv : List Json),
      pd2.atKey "bids" = .jarr bidLv → pd2.atKey "asks" = .jarr askLv →
      market_get_orderbook (.ok (.jobj [("result", .jobj [(alias2, pd2)])])) =
          .ok (bidLv.filterMap levelProduct, askLv.filterMap levelProduct) ∧
        (bidLv.filterMap levelProduct).length =
          bidLv.countP (fun l => (levelProduct l).isSome) ∧
        (askLv.filterMap levelProduct).length =
          askLv.countP (fun l => (levelProduct l).isSome)) := by
  refine ⟨⟨?_, length_filterMap_eq_countP _ _, length_filterMap_eq_countP _ _⟩,
    fun alias2 pd2 bidLv askLv hb2 ha2 =>
      ⟨?_, length_filterMap_eq_countP _ _, length_filterMap_eq_countP _ _⟩⟩
  · simp [get_orderbook, get_ticker_single, hb, ha, Json.as_array]
  · have h1 : (Json.jobj [("result", Json.jobj [(alias2, pd2)])]).atKey "result" =
        Json.jobj [(alias2, pd2)] := rfl
    simp only [market_get_orderbook, h1, Json.as_object, List.head?, hb2, ha2,
      Json.as_array]

theorem orderbook_parses_and_drops_witness :
    get_orderbook (.jsonOk (mkEnvelope [] (some (.jobj [("XXBTZUSD", .jobj
        [("b", .jarr [.jstr "1.25", .jstr "oops", .jnum 3]),
         ("a", .jarr [.jstr "0.5"])])])))) =
      .ok ([Json.jstr "1.25", .jstr "oops", .jnum 3].filterMap
             (fun b => (b.as_str).bind parseF64),
           [Json.jstr "0.5"].filterMap (fun a => (a.as_str).bind parseF64)) :=
  ((orderbook_parses_and_drops "XXBTZUSD"
      (.jobj [("b", .jarr [.jstr "1.25", .jstr "oops", .jnum 3]),
              ("a", .jarr [.jstr "0.5"])])
      [.jstr "1.25", .jstr "oops", .jnum 3] [.jstr "0.5"] rfl rfl).1).1

/-- C10: when the first pair object's `b[0]` (respectively `a[0]`) is not a
JSON string — in particular when it is a JSON number — `get_bid`
(respectively `get_ask`) fails with a `ParseError` instead of returning the
lenient 0.0 default; the 0.0 default applies only when the element is a JSON
string whose contents fail to parse as a float. -/
theorem bid_ask_nonstring_strict (pairAlias : String) (pd : Json) :
    (∀ j : Json, (pd.atKey "b").atIdx 0 = j → j.as_str = none →
      get_bid (.jsonOk (mkEnvelope [] (some (.jobj [(pairAlias, pd)])))) =
        .error (.ParseError "Missing bid")) ∧
    (∀ j : Json, (pd.atKey "a").atIdx 0 = j → j.as_str = none →
      get_ask (.jsonOk (mkEnvelope [] (some (.jobj [(pairAlias, pd)])))) =
        .error (.ParseError "Missing ask")) ∧
    (∀ s : String, (pd.atKey "b").atIdx 0 = .jstr s → parseF64 s = none →
      get_bid (.jsonOk (mkEnvelope [] (some (.jobj [(pairAlias, pd)])))) =
        .ok 0) ∧
    (∀ s : String, (pd.atKey "a").atIdx 0 = .jstr s → parseF64 s = none →
      get_ask (.jsonOk (mkEnvelope [] (some (.jobj [(pairAlias, pd)])))) =
        .ok 0) := by
  refine ⟨fun j hj hns => ?_, fun j hj hns => ?_,
    fun s hs hp => ?_, fun s hs hp => ?_⟩
  · simp [get_bid, get_ticker_single, hj, hns]
  · simp [get_ask, get_ticker_single, hj, hns]
  · simp [get_bid, get_ticker_single, hs, Json.as_str, hp]
  · simp [get_ask, get_ticker_single, hs, Json.as_str, hp]

theorem bid_ask_nonstring_strict_witness :
    get_bid (.jsonOk (mkEnvelope [] (some (.jobj [("XXBTZUSD",
        .jobj [("b", .jarr [.jint 30000])])])))) =
      .error (.ParseError "Missing bid") :=
  (bid_ask_nonstring_strict "XXBTZUSD" (.jobj [("b", .jarr [.jint 30000])])).1
    (.jint 30000) rfl rfl

end BlackSwan
